import Mathlib

/-!
Verification of the video matchmaking / session-lifecycle engine and the
Agora RTC token issuer of the Dirt repository.

The embedding translates `routers/match_routes.py` (the `/video/match`,
`/video/end` handlers and their helpers) and `utils/agora_rtc_token.py`
into executable Lean definitions:

* bytes are `List Nat` (each entry a byte value),
* machine integers are `Nat` with explicit `% 2^w` in the packing helpers,
* timestamps are seconds-since-epoch `Nat`s (`datetime.utcnow()` and
  `time.time()` are modelled by an explicit `now` argument),
* the random salt drawn by `_AccessToken.__init__` is an explicit `salt`
  argument,
* `ORDER BY random() ... first()` is modelled by an explicit selection
  function `pick` constrained (`GoodPick`) to return an element of the
  query's result list and to succeed on non-empty results,
* fallible code returns `Except String _`,
* the relational store is an explicit `DB` value threaded through the
  handlers; row updates go by primary key, as SQLAlchemy's identity map
  does,
* Python stdlib leaves (`str.strip`, `str.lower`, `str(int)`, `base64`,
  `zlib.crc32`, UTF-8 encoding) are modelled by executable definitions
  below; `hmac.new(..., hashlib.sha256).digest()` is kept as an explicit
  function parameter `hmac` since no claim depends on the digest's value.
-/

/-! ## Python stdlib string helpers -/

/-- `str.strip()`: drop leading and trailing whitespace. -/
def pyStrip (s : String) : String :=
  ⟨((s.data.dropWhile Char.isWhitespace).reverse.dropWhile Char.isWhitespace).reverse⟩

/-- `str.lower()` (ASCII, which is all this code base uses). -/
def pyLower (s : String) : String :=
  ⟨s.data.map Char.toLower⟩

/-- Python `a or b` on strings (empty string is falsy). -/
def pyOr (a b : String) : String :=
  if a = "" then b else a

/-- `_norm_gender` from `routers/match_routes.py`: `(value or "").strip().lower()`. -/
def norm_gender (s : String) : String :=
  pyLower (pyStrip s)

/-- Decimal digits, most significant first, with structural fuel
(`fuel` bounds the number of digits; `n + 1` is always enough). -/
def natDigitsCore (fuel : Nat) (n : Nat) : List Char :=
  match fuel with
  | 0 => []
  | fuel + 1 =>
      if n < 10 then [Nat.digitChar n]
      else natDigitsCore fuel (n / 10) ++ [Nat.digitChar (n % 10)]

/-- Decimal digits of a natural number, most significant first (`str(n)` for `n ≥ 0`). -/
def natDigits (n : Nat) : List Char :=
  natDigitsCore (n + 1) n

/-- `str(n)` for a natural number. -/
def natToStr (n : Nat) : String := ⟨natDigits n⟩

/-- `str(i)` for a Python int. -/
def intToStr (i : Int) : String :=
  if i < 0 then "-" ++ natToStr i.natAbs else natToStr i.toNat

/-- UTF-8 encoding of one character (Python `str.encode("utf-8")`, per char). -/
def utf8EncodeChar (c : Char) : List Nat :=
  let n := c.toNat
  if n < 0x80 then [n]
  else if n < 0x800 then [0xC0 + n / 64, 0x80 + n % 64]
  else if n < 0x10000 then [0xE0 + n / 4096, 0x80 + (n / 64) % 64, 0x80 + n % 64]
  else [0xF0 + n / 262144, 0x80 + (n / 4096) % 64, 0x80 + (n / 64) % 64, 0x80 + n % 64]

/-- `s.encode("utf-8")` as a byte list. -/
def strBytes (s : String) : List Nat :=
  (s.data.map utf8EncodeChar).flatten

/-! ## `utils/agora_rtc_token.py` -/

/-- `_pack_uint16`: little-endian 2-byte encoding (`struct.pack("<H", x)`). -/
def pack_uint16 (x : Nat) : List Nat :=
  [x % 256, x / 256 % 256]

/-- `_pack_uint32`: little-endian 4-byte encoding (`struct.pack("<I", x)`). -/
def pack_uint32 (x : Nat) : List Nat :=
  [x % 256, x / 256 % 256, x / 65536 % 256, x / 16777216 % 256]

/-- `_pack_bytes`: uint16 length prefix followed by the bytes. -/
def pack_bytes (b : List Nat) : List Nat :=
  pack_uint16 b.length ++ b

/-- `_pack_string`: uint16 byte-count prefix followed by the UTF-8 payload. -/
def pack_string (s : String) : List Nat :=
  pack_uint16 (strBytes s).length ++ strBytes s

/-- One bit step of the reflected CRC-32 (polynomial 0xEDB88320). -/
def crc32Bit (crc : Nat) : Nat :=
  if crc % 2 == 1 then (crc / 2) ^^^ 0xEDB88320 else crc / 2

/-- Fold one byte into the running CRC. -/
def crc32Byte (crc b : Nat) : Nat :=
  (List.range 8).foldl (fun c _ => crc32Bit c) (crc ^^^ b)

/-- `zlib.crc32(bs) & 0xFFFFFFFF`. -/
def crc32 (bs : List Nat) : Nat :=
  (bs.foldl crc32Byte 0xFFFFFFFF) ^^^ 0xFFFFFFFF

/-- `_crc32`: CRC-32 of a string's UTF-8 bytes. -/
def crc32_str (s : String) : Nat :=
  crc32 (strBytes s)

/-- Standard base64 alphabet lookup. -/
def b64char (n : Nat) : Char :=
  "ABCDEFGHIJKLMNOPQRSTUVWXYZabcdefghijklmnopqrstuvwxyz0123456789+/".data.getD n 'A'

/-- Core of `base64.b64encode`, grouping bytes in threes with `=` padding. -/
def b64encodeCore : List Nat → List Char
  | a :: b :: c :: rest =>
      b64char (a / 4) :: b64char (a % 4 * 16 + b / 16) ::
      b64char (b % 16 * 4 + c / 64) :: b64char (c % 64) :: b64encodeCore rest
  | [a, b] => [b64char (a / 4), b64char (a % 4 * 16 + b / 16), b64char (b % 16 * 4), '=']
  | [a] => [b64char (a / 4), b64char (a % 4 * 16), '=', '=']
  | [] => []

/-- `base64.b64encode(bs).decode("utf-8")`. -/
def b64encode (bs : List Nat) : String :=
  ⟨b64encodeCore bs⟩

/-- State of `_AccessToken` after `__init__`/`add_privilege` calls.
`salt` models `random.randint(1, 99999999)`, `ts` models
`int(time.time()) + 24*60*60`; `messages` is the privilege dict in
insertion order. -/
structure AccessToken where
  app_id : String
  app_certificate : String
  channel_name : String
  uid : String
  salt : Nat
  ts : Nat
  messages : List (Nat × Nat)
deriving DecidableEq, Repr

/-- `_AccessToken.__init__`; `now` is the `time.time()` reading. -/
def accessToken_init (app_id app_certificate channel_name uid : String)
    (salt now : Nat) : AccessToken :=
  { app_id := pyStrip app_id
    app_certificate := pyStrip app_certificate
    channel_name := pyStrip channel_name
    uid := pyStrip uid
    salt := salt
    ts := now + 24 * 60 * 60
    messages := [] }

/-- `_AccessToken.add_privilege`: Python dict assignment, preserving
insertion order and overwriting an existing key in place. -/
def add_privilege (t : AccessToken) (privilege expire_ts : Nat) : AccessToken :=
  { t with
    messages :=
      if t.messages.any (fun p => p.1 == privilege) then
        t.messages.map (fun p => if p.1 == privilege then (privilege, expire_ts) else p)
      else t.messages ++ [(privilege, expire_ts)] }

/-- `_AccessToken.build`. `hmac key msg` stands for
`hmac.new(key, msg, hashlib.sha256).digest()`. -/
def accessToken_build (hmac : List Nat → List Nat → List Nat)
    (t : AccessToken) : Except String String :=
  if t.app_id = "" ∨ t.app_certificate = "" ∨ t.channel_name = "" ∨ t.uid = "" then
    .error "Missing required fields to build Agora token."
  else if t.app_id.length ≠ 32 then
    .error "Invalid AGORA_APP_ID length (expected 32)."
  else
    let msg := pack_uint32 t.salt ++ pack_uint32 t.ts ++ pack_uint16 t.messages.length ++
      (t.messages.map (fun p => pack_uint16 p.1 ++ pack_uint32 p.2)).flatten
    let val := pack_string t.app_id ++ pack_string t.channel_name ++ pack_string t.uid ++ msg
    let sig := hmac (strBytes t.app_certificate) val
    let content := pack_bytes sig ++ pack_uint32 (crc32_str t.channel_name) ++
      pack_uint32 (crc32_str t.uid) ++ pack_bytes msg
    .ok ("006" ++ t.app_id ++ b64encode content)

/-- `build_rtc_token_with_uid`. `salt`/`now` are the hidden randomness and
clock inputs consumed inside `_AccessToken.__init__`. -/
def build_rtc_token_with_uid (hmac : List Nat → List Nat → List Nat)
    (app_id app_certificate channel_name : String) (uid : Int)
    (expire_ts : Nat) (publish : Bool) (salt now : Nat) : Except String String :=
  if uid < 0 then .error "uid must be >= 0"
  else
    let t := accessToken_init app_id app_certificate channel_name (intToStr uid) salt now
    let t := add_privilege t 1 expire_ts
    let t :=
      if publish then
        add_privilege (add_privilege (add_privilege t 2 expire_ts) 3 expire_ts) 4 expire_ts
      else t
    accessToken_build hmac t

/-- The process environment consumed by the token/match code. Each field
is the corresponding `os.getenv` result, with `""` standing for an unset
variable; `ttl_seconds` is the already-parsed `AGORA_TOKEN_TTL_SECONDS`
(defaulted to 3600 by the caller in `match_routes.py`). -/
structure Env where
  agora_app_id : String
  agora_id : String
  agora_cert : String
  ttl_seconds : Nat
deriving DecidableEq, Repr

/-- `build_rtc_token_from_env`: degraded token-less mode when credentials
are missing, otherwise a full token build. -/
def build_rtc_token_from_env (hmac : List Nat → List Nat → List Nat) (env : Env)
    (channel_name : String) (uid : Nat) (ttl_seconds : Nat)
    (salt now : Nat) : Except String (String × Nat) :=
  let app_id := pyStrip (pyOr env.agora_app_id env.agora_id)
  let cert := pyStrip env.agora_cert
  if app_id = "" ∨ cert = "" then .ok ("", 0)
  else
    let expire_ts := now + (if ttl_seconds = 0 then 3600 else ttl_seconds)
    match build_rtc_token_with_uid hmac app_id cert channel_name (Int.ofNat uid)
        expire_ts true salt now with
    | .ok token => .ok (token, expire_ts)
    | .error e => .error e

/-! ## Data model (`models.py`, subset used by the video core) -/

/-- `models.User`, restricted to the fields the video matchmaking core
reads or writes. Nullable columns are `Option`s; timestamps are
seconds-since-epoch. -/
structure MUser where
  id : Nat
  username : Option String
  name : String
  country : String
  gender : String
  description : Option String
  image_url : Option String
  is_subscribed : Bool
  last_active_at : Option Nat
  is_on_call : Bool
  video_state : String
  video_state_updated_at : Option Nat
  video_session_id : Option Nat
  video_partner_id : Option Nat
deriving DecidableEq, Repr

/-- `models.ChatSession` (the video core only creates `mode = "video"` rows). -/
structure MSession where
  id : Nat
  mode : String
  user_a_id : Nat
  user_b_id : Nat
  created_at : Nat
  ended_at : Option Nat
  ended_by_id : Option Nat
deriving DecidableEq, Repr

/-- The relational store: the `users` and `chat_sessions` tables plus the
autoincrement counter for session primary keys. -/
structure DB where
  users : List MUser
  sessions : List MSession
  next_sid : Nat
deriving DecidableEq, Repr

/-- `db.query(User).filter(User.id == uid).first()` / `db.get(User, uid)`. -/
def find_user (db : DB) (uid : Nat) : Option MUser :=
  db.users.find? (fun u => u.id == uid)

/-- Write-back of a (mutated) user row by primary key, as committing an
identity-mapped SQLAlchemy object does. -/
def updateUser (db : DB) (u : MUser) : DB :=
  { db with users := db.users.map (fun v => if v.id == u.id then u else v) }

/-- Write-back of a (mutated) session row by primary key. -/
def updateSession (db : DB) (s : MSession) : DB :=
  { db with sessions := db.sessions.map (fun v => if v.id == s.id then s else v) }

/-! ## `routers/match_routes.py` helpers -/

/-- `_is_online` with its default 120-second window. -/
def is_online (u : MUser) (now : Nat) : Bool :=
  match u.last_active_at with
  | none => false
  | some t => decide (now - t ≤ 120)

/-- `_video_reset_state`: clear all video matchmaking state. -/
def video_reset_state (u : MUser) (now : Nat) : MUser :=
  { u with
    is_on_call := false
    video_state := "idle"
    video_state_updated_at := some now
    video_session_id := none
    video_partner_id := none }

/-- `_video_set_searching`. -/
def video_set_searching (u : MUser) (now : Nat) : MUser :=
  { u with
    video_state := "searching"
    video_state_updated_at := some now
    is_on_call := false
    video_session_id := none
    video_partner_id := none }

/-- `_video_set_in_call`. -/
def video_set_in_call (u : MUser) (now : Nat) (session_id partner_id : Nat) : MUser :=
  { u with
    video_state := "in_call"
    video_state_updated_at := some now
    is_on_call := true
    video_session_id := some session_id
    video_partner_id := some partner_id }

/-- The `/video/match` success payload built by `_video_build_payload`
(field names flattened; the constant `"ok": True` is implicit). -/
structure Payload where
  agora_app_id : String
  channel : String
  agora_uid : Nat
  agora_token : String
  agora_token_expire_ts : Nat
  duration_seconds : Nat
  session_id : Nat
  session_mode : String
  session_user_a_id : Nat
  session_user_b_id : Nat
  session_created_at : Nat
  match_id : Nat
  match_username : String
  match_name : String
  match_country : String
  match_gender : String
  match_description : String
  match_image_url : String
  match_is_online : Bool
  match_is_on_call : Bool
deriving DecidableEq, Repr

/-- `_video_build_payload`: channel derived from the session id, fresh
token from the environment, public profile of the matched user. -/
def video_build_payload (hmac : List Nat → List Nat → List Nat) (env : Env)
    (salt now : Nat) (sess : MSession) (me other : MUser) : Except String Payload :=
  let agora_app_id := pyOr env.agora_id env.agora_app_id
  let channel := "video_" ++ natToStr sess.id
  let agora_uid := me.id
  let ttl := env.ttl_seconds
  match build_rtc_token_from_env hmac env channel agora_uid ttl salt now with
  | .error e => .error e
  | .ok (token, expire_ts) =>
      .ok
        { agora_app_id := agora_app_id
          channel := channel
          agora_uid := agora_uid
          agora_token := token
          agora_token_expire_ts := if expire_ts = 0 then now + ttl else expire_ts
          duration_seconds := 60
          session_id := sess.id
          session_mode := sess.mode
          session_user_a_id := sess.user_a_id
          session_user_b_id := sess.user_b_id
          session_created_at := sess.created_at
          match_id := other.id
          match_username := other.username.getD ""
          match_name := other.name
          match_country := other.country
          match_gender := other.gender
          match_description := other.description.getD ""
          match_image_url := other.image_url.getD ""
          match_is_online := is_online other now
          match_is_on_call := true }

/-- Result of a `/video/match` call: a pairing payload or the
`{"ok": True, "match": None}` empty result. -/
inductive MatchResult where
  | noMatch
  | payload (p : Payload)
deriving DecidableEq, Repr

/-! ## `/video/match` -/

/-- Preference normalization at the top of `video_match`: values outside
`{male, female, both}` are coerced to `"both"`. -/
def coerce_pref (preference : String) : String :=
  let pref := norm_gender preference
  if pref = "male" ∨ pref = "female" ∨ pref = "both" then pref else "both"

/-- The `desired_gender` computation: paid users follow their preference,
free users are forced to their own (normalized) gender; `none` means
unconstrained. -/
def desired_gender (user : MUser) (pref : String) : Option String :=
  if user.is_subscribed then
    if pref = "male" ∨ pref = "female" then some pref else none
  else
    let me := norm_gender user.gender
    if me = "male" ∨ me = "female" then some me else none

/-- Loop avoidance: the distinct partner ids of the requester's video
sessions created within the last hour (as a list; only membership is used). -/
def recent_partner_ids (db : DB) (uid : Nat) (now : Nat) : List Nat :=
  (db.sessions.filter (fun s =>
      decide (now - 3600 ≤ s.created_at) && s.mode == "video" &&
      (s.user_a_id == uid || s.user_b_id == uid))).map
    (fun s => if s.user_a_id == uid then s.user_b_id else s.user_a_id)

/-- The row filter of `get_candidate`'s pool query: another user, not on a
call, online within 2 minutes, actively searching and fresh within 35
seconds, matching the gender constraint and outside the exclusion set. -/
def eligibleB (requester_id : Nat) (desired : Option String) (excluded : List Nat)
    (now : Nat) (u : MUser) : Bool :=
  u.id != requester_id && u.is_on_call == false &&
  (match u.last_active_at with
   | some t => decide (now - 120 ≤ t)
   | none => false) &&
  u.video_state == "searching" &&
  (match u.video_state_updated_at with
   | some t => decide (now - 35 ≤ t)
   | none => false) &&
  (match desired with
   | some g => u.gender == g
   | none => true) &&
  !(excluded.contains u.id)

/-- `get_candidate` for a given exclusion list: the pool query followed by
`ORDER BY random() ... first()`, modelled by `pick`. -/
def get_candidate (pick : List MUser → Option MUser) (db : DB) (requester_id : Nat)
    (desired : Option String) (excluded : List Nat) (now : Nat) : Option MUser :=
  pick (db.users.filter (eligibleB requester_id desired excluded now))

/-- Candidate selection with loop avoidance and one-shot relaxation:
first with the exclusion set, then (only if it was non-empty) without it. -/
def select_candidate (pick : List MUser → Option MUser) (db : DB) (user : MUser)
    (desired : Option String) (now : Nat) : Option MUser :=
  let excluded := recent_partner_ids db user.id now
  match get_candidate pick db user.id desired excluded now with
  | some o => some o
  | none =>
      if excluded ≠ [] then get_candidate pick db user.id desired [] now
      else none

/-- The claim step of `video_match`: insert the Session row, then move
both participants to `in_call`. The writes are unconditional — nothing
re-checks the candidate's `video_state` at write time. Returns the new
store, the session row and the two updated user objects. -/
def claim_pair (db : DB) (user other : MUser) (now : Nat) :
    DB × MSession × MUser × MUser :=
  let sess : MSession :=
    { id := db.next_sid, mode := "video", user_a_id := user.id, user_b_id := other.id
      created_at := now, ended_at := none, ended_by_id := none }
  let db1 : DB := { db with sessions := db.sessions ++ [sess], next_sid := db.next_sid + 1 }
  let me2 := video_set_in_call user now sess.id other.id
  let other2 := video_set_in_call other now sess.id user.id
  (updateUser (updateUser db1 me2) other2, sess, me2, other2)

/-- The search half of `video_match` (from `_video_set_searching` on):
mark the requester searching, select a candidate, claim it and build the
payload, or return the empty result. -/
def video_match_search (hmac : List Nat → List Nat → List Nat) (env : Env)
    (salt now : Nat) (pick : List MUser → Option MUser) (db : DB) (user : MUser)
    (pref : String) : Except String (DB × MatchResult) :=
  let user1 := video_set_searching user now
  let db1 := updateUser db user1
  match select_candidate pick db1 user1 (desired_gender user1 pref) now with
  | none => .ok (db1, .noMatch)
  | some other =>
      let r := claim_pair db1 user1 other now
      match video_build_payload hmac env salt now r.2.1 r.2.2.1 r.2.2.2 with
      | .error e => .error e
      | .ok p => .ok (r.1, .payload p)

/-- The partner id read off a session row from the requester's side. -/
def session_partner (uid : Nat) (s : MSession) : Nat :=
  if s.user_a_id == uid then s.user_b_id else s.user_a_id

/-- `POST /video/match` (`video_match` in `match_routes.py`): idempotent
in-call re-poll (with stale-state reset) followed by the search. `uid` is
the authenticated requester's id. -/
def video_match (hmac : List Nat → List Nat → List Nat) (env : Env)
    (salt now : Nat) (pick : List MUser → Option MUser) (db : DB) (uid : Nat)
    (preference : String) : Except String (DB × MatchResult) :=
  match find_user db uid with
  | none => .error "Not authenticated"
  | some user =>
      let pref := coerce_pref preference
      let current_sid := user.video_session_id.getD 0
      if user.video_state == "in_call" && decide (0 < current_sid) then
        match db.sessions.find? (fun s => s.id == current_sid && s.mode == "video") with
        | some sess =>
            (match find_user db (session_partner user.id sess) with
             | some other =>
                 (match video_build_payload hmac env salt now sess user other with
                  | .error e => .error e
                  | .ok p => .ok (db, .payload p))
             | none =>
                 let user' := video_reset_state user now
                 video_match_search hmac env salt now pick (updateUser db user') user' pref)
        | none =>
            let user' := video_reset_state user now
            video_match_search hmac env salt now pick (updateUser db user') user' pref
      else
        video_match_search hmac env salt now pick db user pref

/-! ## `POST /video/end` -/

/-- Reset one user's video state by id, if the row exists
(the `if u: _video_reset_state(db, u)` loop body of `end_video_call`). -/
def reset_user_id (db : DB) (uid : Nat) (now : Nat) : DB :=
  match find_user db uid with
  | some u => updateUser db (video_reset_state u now)
  | none => db

/-- The session lookup predicate of `end_video_call`: same id, video mode,
caller is a participant. -/
def endSessPred (sid caller_id : Nat) (s : MSession) : Bool :=
  s.id == sid && s.mode == "video" && (s.user_a_id == caller_id || s.user_b_id == caller_id)

/-- `POST /video/end` (`end_video_call`): stamp the session as ended and
reset both participants; fall back to resetting only the caller. Always
returns success. -/
def end_video_call (db : DB) (uid : Nat) (session_id : Option Nat) (now : Nat) :
    Except String (DB × Bool) :=
  match find_user db uid with
  | none => .error "Not authenticated"
  | some user =>
      let sid := session_id.getD 0
      if 0 < sid then
        match db.sessions.find? (endSessPred sid user.id) with
        | some sess =>
            let sess' := { sess with ended_at := some now, ended_by_id := some user.id }
            let db1 := updateSession db sess'
            let db2 := reset_user_id (reset_user_id db1 sess.user_a_id now) sess.user_b_id now
            .ok (db2, true)
        | none => .ok (reset_user_id db user.id now, true)
      else .ok (reset_user_id db user.id now, true)

/-- Faithfulness constraint on the `pick` argument modelling
`ORDER BY random() ... first()`: it returns a member of the query result,
and succeeds exactly when the result is non-empty. -/
def GoodPick (pick : List MUser → Option MUser) : Prop :=
  (∀ l u, pick l = some u → u ∈ l) ∧ (∀ l, l ≠ [] → (pick l).isSome = true)

/-- Well-formedness of the Agora environment: credentials absent (degraded
token-less mode) or a 32-character app id with a certificate, so that
token building never raises. -/
def env_ok (env : Env) : Prop :=
  pyStrip (pyOr env.agora_app_id env.agora_id) = "" ∨ pyStrip env.agora_cert = "" ∨
    (pyStrip (pyOr env.agora_app_id env.agora_id)).length = 32

/-! ## Concrete instances used by witnesses and counterexamples -/

deriving instance DecidableEq for Except

/-- A stand-in HMAC-SHA256 for concrete evaluations (the layout theorems
hold for every `hmac` function; witnesses instantiate it). -/
def hmac0 : List Nat → List Nat → List Nat := fun _ _ => List.replicate 32 0

/-- A well-formed 32-character app id for concrete evaluations. -/
def appW : String := "0123456789abcdef0123456789abcdef"

/-- Degraded environment: no Agora credentials configured. -/
def env0 : Env := { agora_app_id := "", agora_id := "", agora_cert := "", ttl_seconds := 3600 }

/-- Shorthand for building concrete user rows. -/
def mkUser (id : Nat) (gender : String) (sub : Bool) (last : Option Nat)
    (onCall : Bool) (vs : String) (vsu : Option Nat) (vsid vpid : Option Nat) : MUser :=
  { id := id, username := none, name := "u", country := "x", gender := gender
    description := none, image_url := none, is_subscribed := sub, last_active_at := last
    is_on_call := onCall, video_state := vs, video_state_updated_at := vsu
    video_session_id := vsid, video_partner_id := vpid }


/-- Whether a `/video/match` call returned HTTP-success (no exception). -/
def result_is_ok : Except String (DB × MatchResult) → Bool
  | .ok _ => true
  | .error _ => false

/-- The store state after a successful `/video/match` call. -/
def result_db : Except String (DB × MatchResult) → Option DB
  | .ok (db, _) => some db
  | .error _ => none

/-- The `session.id` of a successful pairing payload, if any. -/
def result_session_id : Except String (DB × MatchResult) → Option Nat
  | .ok (_, .payload p) => some p.session_id
  | _ => none

/-- The matched partner's id of a successful pairing payload, if any. -/
def result_partner_id : Except String (DB × MatchResult) → Option Nat
  | .ok (_, .payload p) => some p.match_id
  | _ => none

/-- The matched partner's gender of a successful pairing payload, if any. -/
def result_partner_gender : Except String (DB × MatchResult) → Option String
  | .ok (_, .payload p) => some p.match_gender
  | _ => none

/-- C5 scenario store: a single idle free-tier user. -/
def c5db : DB :=
  { users := [mkUser 1 "male" false (some 1000) false "idle" none none none]
    sessions := [], next_sid := 1 }

/-- C2 counterexample store: user 1 is a free-tier male actively searching;
user 2 is a subscribed female about to request a male partner. -/
def c2db : DB :=
  { users := [mkUser 1 "male" false (some 1000) false "searching" (some 1000) none none,
              mkUser 2 "female" true (some 1000) false "idle" none none none]
    sessions := [], next_sid := 1 }

/-- C2 witness store: a free-tier male requester and a male candidate. -/
def c2wdb : DB :=
  { users := [mkUser 1 "male" false (some 1000) false "idle" none none none,
              mkUser 2 "male" false (some 1000) false "searching" (some 1000) none none]
    sessions := [], next_sid := 1 }

/-- C3 witness session: a live video session pairing users 1 and 2. -/
def c3sess : MSession :=
  { id := 5, mode := "video", user_a_id := 1, user_b_id := 2, created_at := 900
    ended_at := none, ended_by_id := none }

/-- C3 witness store: users 1 and 2 in-call on live session 5. -/
def c3db : DB :=
  { users := [mkUser 1 "male" false (some 1000) true "in_call" (some 900) (some 5) (some 2),
              mkUser 2 "female" false (some 1000) true "in_call" (some 900) (some 5) (some 1)]
    sessions := [c3sess], next_sid := 6 }

/-- C4 counterexample store: users 1 and 2 in-call on live session 5. -/
def c4db : DB :=
  { users := [mkUser 1 "male" false (some 50) true "in_call" (some 50) (some 5) (some 2),
              mkUser 2 "female" false (some 50) true "in_call" (some 50) (some 5) (some 1)]
    sessions := [{ id := 5, mode := "video", user_a_id := 1, user_b_id := 2, created_at := 50
                   ended_at := none, ended_by_id := none }]
    next_sid := 6 }

/-- C6 witness store: subscribed requester 1 whose only eligible
counterpart is user 2, already matched with them 200 seconds ago. -/
def c6db : DB :=
  { users := [mkUser 1 "male" true (some 1000) false "idle" none none none,
              mkUser 2 "female" false (some 1000) false "searching" (some 1000) none none]
    sessions := [{ id := 1, mode := "video", user_a_id := 1, user_b_id := 2, created_at := 800
                   ended_at := none, ended_by_id := none }]
    next_sid := 2 }

/-- C10 witness store: user 1 is `in_call` with `video_session_id = 5`,
but no session row with id 5 exists (stale state). -/
def c10db : DB :=
  { users := [mkUser 1 "male" false (some 1000) true "in_call" (some 900) (some 5) (some 9)]
    sessions := [], next_sid := 6 }

/-- C1 race scenario: requesters A (id 1) and B (id 2), both subscribed
males, and a single eligible candidate C (id 3), a searching-fresh female. -/
def race_userA : MUser := mkUser 1 "male" true (some 10000) false "idle" none none none

/-- Requester B of the C1 race scenario. -/
def race_userB : MUser := mkUser 2 "male" true (some 10000) false "idle" none none none

/-- The sole eligible candidate C of the C1 race scenario. -/
def race_userC : MUser :=
  mkUser 3 "female" false (some 10000) false "searching" (some 10000) none none

/-- Initial store of the C1 race scenario. -/
def race_db : DB := { users := [race_userA, race_userB, race_userC], sessions := [], next_sid := 1 }

/-- The interleaved execution of two concurrent `video_match` calls
(A with preference "both", B with preference "female"), at the commit
granularity the handler actually has: each call commits its
`_video_set_searching` write, then runs its candidate SELECT, then
commits its claim writes. Here both SELECTs run before either claim
commits — an interleaving nothing in the code prevents, since the claim
step (`claim_pair`) re-checks nothing and updates rows unconditionally by
primary key. Built from the very same `select_candidate`/`claim_pair`
definitions `video_match_search` is composed of. -/
def race_final : DB :=
  let now := 10000
  let a1 := video_set_searching race_userA now
  let d1 := updateUser race_db a1
  let candA := select_candidate List.head? d1 a1 (desired_gender a1 (coerce_pref "both")) now
  let b1 := video_set_searching race_userB now
  let d2 := updateUser d1 b1
  let candB := select_candidate List.head? d2 b1 (desired_gender b1 (coerce_pref "female")) now
  match candA, candB with
  | some cA, some cB =>
      let r1 := claim_pair d2 a1 cA now
      let r2 := claim_pair r1.1 b1 cB now
      r2.1
  | _, _ => race_db


/-! ## Helper lemmas about the string model -/

theorem dropWhile_head?_false {α : Type} (p : α → Bool) (l : List α) (a : α)
    (h : (l.dropWhile p).head? = some a) : p a = false := by
  induction l with
  | nil => simp [List.dropWhile] at h
  | cons x xs ih =>
    rw [List.dropWhile_cons] at h
    by_cases hx : p x = true
    · rw [if_pos hx] at h
      exact ih h
    · rw [if_neg hx] at h
      simp only [List.head?_cons, Option.some.injEq] at h
      subst h
      exact Bool.not_eq_true _ ▸ Bool.of_not_eq_true hx

theorem mem_dropWhile_of_false {α : Type} (p : α → Bool) (l : List α) (c : α)
    (hc : c ∈ l) (hp : p c = false) : c ∈ l.dropWhile p := by
  induction l with
  | nil => cases hc
  | cons x xs ih =>
    rw [List.dropWhile_cons]
    by_cases hx : p x = true
    · rw [if_pos hx]
      rcases List.mem_cons.mp hc with h | h
      · subst h
        rw [hp] at hx
        cases hx
      · exact ih h
    · rw [if_neg hx]
      exact hc

theorem dropWhile_dropWhile {α : Type} (p : α → Bool) (l : List α) :
    (l.dropWhile p).dropWhile p = l.dropWhile p := by
  cases hd : l.dropWhile p with
  | nil => rfl
  | cons a t =>
    have ha : p a = false := dropWhile_head?_false p l a (by rw [hd]; rfl)
    rw [List.dropWhile_cons, if_neg (by simp [ha])]

theorem pyStrip_ne_empty {s : String} {c : Char} (hc : c ∈ s.data)
    (hw : c.isWhitespace = false) : pyStrip s ≠ "" := by
  intro h
  have hdata :
      ((s.data.dropWhile Char.isWhitespace).reverse.dropWhile Char.isWhitespace).reverse
        = [] := congrArg String.data h
  rw [List.reverse_eq_nil_iff] at hdata
  have hmem : c ∈ (s.data.dropWhile Char.isWhitespace).reverse :=
    List.mem_reverse.mpr (mem_dropWhile_of_false _ _ _ hc hw)
  have := (List.dropWhile_eq_nil_iff.mp hdata) c hmem
  rw [hw] at this
  cases this

theorem getLast?_dropWhile {α : Type} (p : α → Bool) (l : List α) (a : α)
    (h : (l.dropWhile p).getLast? = some a) : l.getLast? = some a := by
  rcases List.dropWhile_suffix (l := l) p with ⟨t, ht⟩
  rw [← ht, List.getLast?_append, h]
  rfl

theorem pyStrip_idem (s : String) : pyStrip (pyStrip s) = pyStrip s := by
  unfold pyStrip
  set p := Char.isWhitespace with hp
  set A := s.data.dropWhile p with hA
  set B := A.reverse.dropWhile p with hB
  have hBB : B.dropWhile p = B := dropWhile_dropWhile p A.reverse
  have hstep1 : B.reverse.dropWhile p = B.reverse := by
    cases hBr : B.reverse with
    | nil => rfl
    | cons x xs =>
      have hd : B.getLast? = some x := by
        rw [← List.head?_reverse, hBr]
        rfl
      have hrl : A.reverse.getLast? = some x := by
        rw [hB] at hd
        exact getLast?_dropWhile p A.reverse x hd
      have hax : A.head? = some x := by
        rw [← List.getLast?_reverse]
        exact hrl
      have hx : p x = false := by
        rw [hA] at hax
        exact dropWhile_head?_false p s.data x hax
      rw [List.dropWhile_cons, if_neg (by simp [hx])]
  show String.mk (((B.reverse.dropWhile p).reverse.dropWhile p).reverse) = String.mk B.reverse
  rw [hstep1, List.reverse_reverse, hBB]

theorem natDigits_ne_nil (n : Nat) : natDigits n ≠ [] := by
  rw [natDigits]
  show natDigitsCore (n + 1) n ≠ []
  rw [natDigitsCore]
  split
  · simp
  · simp

theorem natDigitsCore_not_ws (fuel : Nat) :
    ∀ n, ∀ c ∈ natDigitsCore fuel n, c.isWhitespace = false := by
  induction fuel with
  | zero =>
    intro n c hc
    cases hc
  | succ fuel ih =>
    intro n c hc
    rw [natDigitsCore] at hc
    split at hc
    · rw [List.mem_singleton] at hc
      subst hc
      rename_i h
      interval_cases n <;> decide
    · rcases List.mem_append.mp hc with h | h
      · exact ih (n / 10) c h
      · rw [List.mem_singleton] at h
        subst h
        have hlt : n % 10 < 10 := Nat.mod_lt _ (by omega)
        set m := n % 10 with hm
        interval_cases m <;> decide

theorem natDigits_not_ws (n : Nat) : ∀ c ∈ natDigits n, c.isWhitespace = false :=
  natDigitsCore_not_ws (n + 1) n

theorem pyStrip_natToStr_ne_empty (n : Nat) : pyStrip (natToStr n) ≠ "" := by
  have hne := natDigits_ne_nil n
  cases hd : natDigits n with
  | nil => exact absurd hd hne
  | cons c cs =>
    refine pyStrip_ne_empty (c := c) ?_ ?_
    · show c ∈ (natToStr n).data
      show c ∈ natDigits n
      rw [hd]
      exact List.mem_cons_self _ _
    · exact natDigits_not_ws n c (by rw [hd]; exact List.mem_cons_self _ _)

theorem pyStrip_video_channel_ne_empty (s : String) :
    pyStrip ("video_" ++ s) ≠ "" := by
  refine pyStrip_ne_empty (c := 'v') ?_ (by decide)
  rw [String.data_append]
  exact List.mem_append.mpr (Or.inl (by decide))

theorem length_ne_zero_of_ne_empty {s : String} (h : s.length = 32) : s ≠ "" := by
  intro he
  subst he
  simp at h

/-! ## Token-builder success lemmas -/

theorem accessToken_build_ok (hmac : List Nat → List Nat → List Nat) (t : AccessToken)
    (h1 : t.app_id ≠ "") (h2 : t.app_certificate ≠ "") (h3 : t.channel_name ≠ "")
    (h4 : t.uid ≠ "") (h5 : t.app_id.length = 32) :
    ∃ s, accessToken_build hmac t = .ok s := by
  unfold accessToken_build
  rw [if_neg (by push_neg; exact ⟨h1, h2, h3, h4⟩), if_neg (by omega)]
  exact ⟨_, rfl⟩

theorem build_rtc_token_with_uid_ok (hmac : List Nat → List Nat → List Nat)
    (app cert channel : String) (n : Nat) (expire_ts : Nat) (publish : Bool)
    (salt now : Nat)
    (hApp : (pyStrip app).length = 32) (hCert : pyStrip cert ≠ "")
    (hCh : pyStrip channel ≠ "") :
    ∃ s, build_rtc_token_with_uid hmac app cert channel (Int.ofNat n) expire_ts publish
        salt now = .ok s := by
  unfold build_rtc_token_with_uid
  rw [if_neg (show ¬(Int.ofNat n < 0) from not_lt.mpr (Int.ofNat_nonneg n))]
  have huid : intToStr (Int.ofNat n) = natToStr n := by
    unfold intToStr
    rw [if_neg (show ¬(Int.ofNat n < 0) from not_lt.mpr (Int.ofNat_nonneg n))]
    rfl
  have hfields :
      ∀ t : AccessToken, ∀ k v, ((add_privilege t k v).app_id = t.app_id ∧
        (add_privilege t k v).app_certificate = t.app_certificate ∧
        (add_privilege t k v).channel_name = t.channel_name ∧
        (add_privilege t k v).uid = t.uid) := by
    intro t k v
    simp [add_privilege]
  set t0 := accessToken_init app cert channel (intToStr (Int.ofNat n)) salt now with ht0
  set t1 := add_privilege t0 1 expire_ts with ht1
  set t2 := if publish then
      add_privilege (add_privilege (add_privilege t1 2 expire_ts) 3 expire_ts) 4 expire_ts
    else t1 with ht2
  have hsame : t2.app_id = pyStrip app ∧ t2.app_certificate = pyStrip cert ∧
      t2.channel_name = pyStrip channel ∧ t2.uid = pyStrip (natToStr n) := by
    have h0 : t0.app_id = pyStrip app ∧ t0.app_certificate = pyStrip cert ∧
        t0.channel_name = pyStrip channel ∧ t0.uid = pyStrip (natToStr n) := by
      rw [ht0, huid]
      exact ⟨rfl, rfl, rfl, rfl⟩
    have h1 : t1.app_id = pyStrip app ∧ t1.app_certificate = pyStrip cert ∧
        t1.channel_name = pyStrip channel ∧ t1.uid = pyStrip (natToStr n) := by
      rcases hfields t0 1 expire_ts with ⟨a, b, c, d⟩
      rw [ht1, a, b, c, d]
      exact h0
    rw [ht2]
    cases publish with
    | false =>
      simpa using h1
    | true =>
      simp only [if_pos]
      rcases hfields (add_privilege (add_privilege t1 2 expire_ts) 3 expire_ts) 4 expire_ts
        with ⟨a4, b4, c4, d4⟩
      rcases hfields (add_privilege t1 2 expire_ts) 3 expire_ts with ⟨a3, b3, c3, d3⟩
      rcases hfields t1 2 expire_ts with ⟨a2, b2, c2, d2⟩
      rw [a4, b4, c4, d4, a3, b3, c3, d3, a2, b2, c2, d2]
      exact h1
  rcases hsame with ⟨ha, hb, hc, hd⟩
  exact accessToken_build_ok hmac t2
    (ha ▸ length_ne_zero_of_ne_empty hApp) (hb ▸ hCert) (hc ▸ hCh)
    (hd ▸ pyStrip_natToStr_ne_empty n) (ha ▸ hApp)

theorem build_rtc_token_from_env_ok (hmac : List Nat → List Nat → List Nat) (env : Env)
    (channel : String) (uid ttl salt now : Nat)
    (he : env_ok env) (hch : pyStrip channel ≠ "") :
    ∃ r, build_rtc_token_from_env hmac env channel uid ttl salt now = .ok r := by
  simp only [build_rtc_token_from_env]
  by_cases hdeg : pyStrip (pyOr env.agora_app_id env.agora_id) = "" ∨ pyStrip env.agora_cert = ""
  · rw [if_pos hdeg]
    exact ⟨_, rfl⟩
  · rw [if_neg hdeg]
    push_neg at hdeg
    have h32 : (pyStrip (pyOr env.agora_app_id env.agora_id)).length = 32 := by
      rcases he with h | h | h
      · exact absurd h hdeg.1
      · exact absurd h hdeg.2
      · exact h
    rcases build_rtc_token_with_uid_ok hmac (pyStrip (pyOr env.agora_app_id env.agora_id))
        (pyStrip env.agora_cert) channel uid
        (now + (if ttl = 0 then 3600 else ttl)) true salt now
        (by rw [pyStrip_idem]; exact h32) (by rw [pyStrip_idem]; exact hdeg.2) hch
      with ⟨s, hs⟩
    rw [hs]
    exact ⟨_, rfl⟩

theorem video_build_payload_ok (hmac : List Nat → List Nat → List Nat) (env : Env)
    (salt now : Nat) (sess : MSession) (me other : MUser) (he : env_ok env) :
    ∃ p, video_build_payload hmac env salt now sess me other = .ok p := by
  simp only [video_build_payload]
  rcases build_rtc_token_from_env_ok hmac env ("video_" ++ natToStr sess.id) me.id
      env.ttl_seconds salt now he (pyStrip_video_channel_ne_empty _) with ⟨r, hr⟩
  obtain ⟨tok, ex⟩ := r
  rw [hr]
  exact ⟨_, rfl⟩

/-! ## Claim C7 — determinism of the token builder -/

set_option maxRecDepth 10000

/-- C7 counterexample: `build_token` is *not* a deterministic function of
`(app_id, app_certificate, channel, uid, expire_ts, publish)` alone — two
calls with these six arguments identical can return different token
strings, because `_AccessToken.__init__` draws a fresh random salt
(`random.randint(1, 99999999)`) that is embedded in the message body.
Here the two calls differ only in that hidden salt (1 vs 2). -/
theorem build_token_not_deterministic :
    build_rtc_token_with_uid hmac0 appW "cert" "ch" 0 100 true 1 0 ≠
    build_rtc_token_with_uid hmac0 appW "cert" "ch" 0 100 true 2 0 := by
  decide

/-- C7 (amended): `build_token` performs no I/O and is deterministic as a
function of its arguments *together with* the random salt and the clock
reading drawn at call time: two calls with identical
app_id/certificate/channel/uid/expiry/publish arguments and equal sampled
salt and clock produce byte-identical token strings. -/
theorem build_token_deterministic_given_salt_clock
    (hmac : List Nat → List Nat → List Nat) (app cert channel : String)
    (uid : Int) (expire_ts : Nat) (publish : Bool) (s1 s2 n1 n2 : Nat)
    (hs : s1 = s2) (hn : n1 = n2) :
    build_rtc_token_with_uid hmac app cert channel uid expire_ts publish s1 n1 =
    build_rtc_token_with_uid hmac app cert channel uid expire_ts publish s2 n2 := by
  rw [hs, hn]

/-- Witness for C7's amended theorem at a concrete input. -/
theorem build_token_deterministic_given_salt_clock_witness :
    build_rtc_token_with_uid hmac0 appW "cert" "ch" 0 100 true 7 5 =
    build_rtc_token_with_uid hmac0 appW "cert" "ch" 0 100 true 7 5 :=
  build_token_deterministic_given_salt_clock hmac0 appW "cert" "ch" 0 100 true 7 7 5 5
    rfl rfl

/-! ## Claim C9 — app id validation and degraded token-less mode -/

theorem add_privilege_app_id (t : AccessToken) (k v : Nat) :
    (add_privilege t k v).app_id = t.app_id := by
  simp [add_privilege]

/-- C9: the token issuer rejects with a validation error whenever the
(stripped) app id is present but not exactly 32 characters long — on any
such call `build_rtc_token_with_uid` returns an error, never a token —
and when the app id or certificate is unavailable from the environment,
`build_rtc_token_from_env` does not raise but returns the empty token
with expiry 0 (degraded token-less mode). -/
theorem token_validation_and_degraded_mode :
    (∀ (hmac : List Nat → List Nat → List Nat) (app cert channel : String) (uid : Int)
        (expire_ts : Nat) (publish : Bool) (salt now : Nat),
      pyStrip app ≠ "" → (pyStrip app).length ≠ 32 →
      ∃ e, build_rtc_token_with_uid hmac app cert channel uid expire_ts publish salt now =
        .error e) ∧
    (∀ (hmac : List Nat → List Nat → List Nat) (env : Env) (channel : String)
        (uid ttl salt now : Nat),
      pyStrip (pyOr env.agora_app_id env.agora_id) = "" ∨ pyStrip env.agora_cert = "" →
      build_rtc_token_from_env hmac env channel uid ttl salt now = .ok ("", 0)) := by
  constructor
  · intro hmac app cert channel uid expire_ts publish salt now hne h32
    unfold build_rtc_token_with_uid
    by_cases hu : uid < 0
    · rw [if_pos hu]
      exact ⟨_, rfl⟩
    · rw [if_neg hu]
      set t0 := accessToken_init app cert channel (intToStr uid) salt now with ht0
      set t1 := add_privilege t0 1 expire_ts with ht1
      set t2 := if publish then
          add_privilege (add_privilege (add_privilege t1 2 expire_ts) 3 expire_ts) 4 expire_ts
        else t1 with ht2
      have happ : t2.app_id = pyStrip app := by
        have h0 : t0.app_id = pyStrip app := rfl
        have h1 : t1.app_id = pyStrip app := by
          rw [ht1, add_privilege_app_id]
          exact h0
        rw [ht2]
        cases publish with
        | false => simpa using h1
        | true =>
          simp only [if_pos]
          rw [add_privilege_app_id, add_privilege_app_id, add_privilege_app_id]
          exact h1
      unfold accessToken_build
      by_cases hC : t2.app_id = "" ∨ t2.app_certificate = "" ∨ t2.channel_name = "" ∨
          t2.uid = ""
      · rw [if_pos hC]
        exact ⟨_, rfl⟩
      · rw [if_neg hC, if_pos (by rw [happ]; exact h32)]
        exact ⟨_, rfl⟩
  · intro hmac env channel uid ttl salt now hdeg
    simp only [build_rtc_token_from_env]
    rw [if_pos hdeg]

/-- Witness for C9 at concrete inputs: a 5-character app id is rejected,
and an unconfigured environment yields the empty token with expiry 0. -/
theorem token_validation_and_degraded_mode_witness :
    (∃ e, build_rtc_token_with_uid hmac0 "short" "cert" "ch" 0 100 true 1 0 = .error e) ∧
    build_rtc_token_from_env hmac0 env0 "ch" 1 3600 1 0 = .ok ("", 0) :=
  ⟨token_validation_and_degraded_mode.1 hmac0 "short" "cert" "ch" 0 100 true 1 0
      (by decide) (by decide),
   token_validation_and_degraded_mode.2 hmac0 env0 "ch" 1 3600 1 0 (Or.inl (by decide))⟩

/-! ## Claim C8 — version-006 binary token layout -/

/-- C8: every token produced by a successful `build_rtc_token_with_uid`
call (with `publish = true`, as every call site uses) conforms to the
version-006 layout: message body = uint32 salt ∥ uint32 expiry ∥ uint16
privilege count ∥ per-privilege (uint16 id ∥ uint32 expiry) for the four
privileges join/audio/video/data; final content = uint16-length-prefixed
HMAC-SHA256 signature ∥ uint32 CRC32(channel) ∥ uint32 CRC32(uid) ∥
uint16-length-prefixed message body, base64-encoded and prefixed with
`"006"` followed by the raw 32-character app id. All integers are
little-endian (`pack_uint16`/`pack_uint32`) and all length prefixes are
uint16 byte-counts of UTF-8 payloads. -/
theorem token_006_layout (hmac : List Nat → List Nat → List Nat)
    (app cert channel : String) (n : Nat) (expire_ts salt now : Nat)
    (hApp : (pyStrip app).length = 32) (hCert : pyStrip cert ≠ "")
    (hCh : pyStrip channel ≠ "") :
    build_rtc_token_with_uid hmac app cert channel (Int.ofNat n) expire_ts true salt now =
      .ok
        (let msg := pack_uint32 salt ++ pack_uint32 (now + 24 * 60 * 60) ++ pack_uint16 4 ++
           (pack_uint16 1 ++ pack_uint32 expire_ts) ++ (pack_uint16 2 ++ pack_uint32 expire_ts) ++
           (pack_uint16 3 ++ pack_uint32 expire_ts) ++ (pack_uint16 4 ++ pack_uint32 expire_ts)
         let sig := hmac (strBytes (pyStrip cert))
           (pack_string (pyStrip app) ++ pack_string (pyStrip channel) ++
            pack_string (pyStrip (natToStr n)) ++ msg)
         "006" ++ pyStrip app ++
           b64encode (pack_uint16 sig.length ++ sig ++
             pack_uint32 (crc32_str (pyStrip channel)) ++
             pack_uint32 (crc32_str (pyStrip (natToStr n))) ++
             pack_uint16 msg.length ++ msg)) := by
  have huid : intToStr (Int.ofNat n) = natToStr n := by
    unfold intToStr
    rw [if_neg (show ¬(Int.ofNat n < 0) from not_lt.mpr (Int.ofNat_nonneg n))]
    rfl
  unfold build_rtc_token_with_uid
  rw [if_neg (show ¬(Int.ofNat n < 0) from not_lt.mpr (Int.ofNat_nonneg n)), huid]
  have hT : add_privilege (add_privilege (add_privilege (add_privilege
      (accessToken_init app cert channel (natToStr n) salt now) 1 expire_ts) 2 expire_ts)
        3 expire_ts) 4 expire_ts =
      { app_id := pyStrip app, app_certificate := pyStrip cert
        channel_name := pyStrip channel, uid := pyStrip (natToStr n)
        salt := salt, ts := now + 24 * 60 * 60
        messages := [(1, expire_ts), (2, expire_ts), (3, expire_ts), (4, expire_ts)] } := rfl
  simp only [if_pos]
  rw [hT]
  unfold accessToken_build
  rw [if_neg (by
        push_neg
        exact ⟨length_ne_zero_of_ne_empty hApp, hCert, hCh, pyStrip_natToStr_ne_empty n⟩),
      if_neg (by simpa using hApp)]
  simp only [pack_bytes, List.map_cons, List.map_nil, List.flatten, List.length_cons,
    List.length_nil, List.append_assoc, List.append_nil]

/-- Witness for C8 at a concrete input. -/
theorem token_006_layout_witness :
    build_rtc_token_with_uid hmac0 appW "cert" "ch" (Int.ofNat 5) 100 true 1 0 =
      .ok
        (let msg := pack_uint32 1 ++ pack_uint32 (0 + 24 * 60 * 60) ++ pack_uint16 4 ++
           (pack_uint16 1 ++ pack_uint32 100) ++ (pack_uint16 2 ++ pack_uint32 100) ++
           (pack_uint16 3 ++ pack_uint32 100) ++ (pack_uint16 4 ++ pack_uint32 100)
         let sig := hmac0 (strBytes (pyStrip "cert"))
           (pack_string (pyStrip appW) ++ pack_string (pyStrip "ch") ++
            pack_string (pyStrip (natToStr 5)) ++ msg)
         "006" ++ pyStrip appW ++
           b64encode (pack_uint16 sig.length ++ sig ++
             pack_uint32 (crc32_str (pyStrip "ch")) ++
             pack_uint32 (crc32_str (pyStrip (natToStr 5))) ++
             pack_uint16 msg.length ++ msg)) :=
  token_006_layout hmac0 appW "cert" "ch" 5 100 1 0 (by decide) (by decide) (by decide)

/-! ## Pick facts -/

theorem goodPick_head? : GoodPick List.head? := by
  constructor
  · intro l u h
    cases l with
    | nil => cases h
    | cons a t =>
      simp only [List.head?_cons, Option.some.injEq] at h
      subst h
      exact List.mem_cons_self _ _
  · intro l h
    cases l with
    | nil => exact absurd rfl h
    | cons a t => rfl

/-! ## Claim C1 — the candidate claim is not atomic -/

/-- C1: the candidate claim in `video_match` is *not* conditional on the
candidate's `video_state` still being `searching` and performs no
affected-row check, so two concurrent `match()` calls targeting the same
sole eligible candidate can both claim them. In the interleaved execution
`race_final` (both candidate SELECTs before either claim commit), both
requester A (id 1) and requester B (id 2) create live, unended sessions
with candidate C (id 3): the store ends with the two video sessions
(1, 3) and (2, 3), both unended, and C's row points at B — violating the
"exactly one of them pairs with C" requirement. -/
theorem video_match_claim_race :
    race_final.sessions.map (fun s => (s.user_a_id, s.user_b_id, s.ended_at)) =
      [(1, 3, none), (2, 3, none)] ∧
    (find_user race_final 3).map (fun u => (u.video_partner_id, u.video_state)) =
      some (some 2, "in_call") := by
  constructor
  · decide
  · decide

/-! ## Claim C5 — invalid preference values are not rejected -/

/-- C5 counterexample: a `match()` request with the invalid preference
`"alien"` is not rejected with a client error: the call returns HTTP
success (an empty-match result here) and reaches the matching logic —
it transitions the requester to `searching`. -/
theorem invalid_preference_not_rejected :
    ∃ db', video_match hmac0 env0 1 1000 List.head? c5db 1 "alien" = .ok (db', .noMatch) ∧
      (find_user db' 1).map (fun u => u.video_state) = some "searching" :=
  ⟨_, rfl, by decide⟩

/-- C5 (amended): a preference value outside `{male, female, both}` is not
rejected; `video_match` silently coerces it to `"both"` and processes the
request exactly as if `"both"` had been supplied. -/
theorem invalid_preference_coerced_to_both (hmac : List Nat → List Nat → List Nat)
    (env : Env) (salt now : Nat) (pick : List MUser → Option MUser) (db : DB) (uid : Nat)
    (pref : String) (h1 : norm_gender pref ≠ "male") (h2 : norm_gender pref ≠ "female")
    (h3 : norm_gender pref ≠ "both") :
    video_match hmac env salt now pick db uid pref =
    video_match hmac env salt now pick db uid "both" := by
  unfold video_match
  rw [show coerce_pref pref = "both" by
        unfold coerce_pref
        rw [if_neg (by push_neg; exact ⟨h1, h2, h3⟩)],
      show coerce_pref "both" = "both" by decide]

/-- Witness for C5's amended theorem at a concrete input. -/
theorem invalid_preference_coerced_to_both_witness :
    video_match hmac0 env0 1 1000 List.head? c5db 1 "alien" =
    video_match hmac0 env0 1 1000 List.head? c5db 1 "both" :=
  invalid_preference_coerced_to_both hmac0 env0 1 1000 List.head? c5db 1 "alien"
    (by decide) (by decide) (by decide)

/-! ## Query-result facts -/

theorem eligibleB_weaken (rid : Nat) (desired : Option String) (excl : List Nat)
    (now : Nat) (u : MUser) (h : eligibleB rid desired excl now u = true) :
    eligibleB rid desired [] now u = true := by
  simp only [eligibleB, Bool.and_eq_true] at h ⊢
  exact ⟨h.1, rfl⟩

theorem eligibleB_gender (rid : Nat) (gdes : String) (excl : List Nat) (now : Nat)
    (u : MUser) (h : eligibleB rid (some gdes) excl now u = true) : u.gender = gdes := by
  simp only [eligibleB, Bool.and_eq_true, beq_iff_eq] at h
  exact h.1.2

theorem get_candidate_eligible (pick : List MUser → Option MUser) (db : DB) (rid : Nat)
    (desired : Option String) (excluded : List Nat) (now : Nat) (other : MUser)
    (hp : GoodPick pick) (h : get_candidate pick db rid desired excluded now = some other) :
    other ∈ db.users ∧ eligibleB rid desired excluded now other = true := by
  unfold get_candidate at h
  have hmem := hp.1 _ _ h
  exact ⟨(List.mem_filter.mp hmem).1, (List.mem_filter.mp hmem).2⟩

theorem select_candidate_eligible (pick : List MUser → Option MUser) (db : DB)
    (user : MUser) (desired : Option String) (now : Nat) (other : MUser)
    (hp : GoodPick pick) (h : select_candidate pick db user desired now = some other) :
    other ∈ db.users ∧ eligibleB user.id desired [] now other = true := by
  simp only [select_candidate] at h
  cases hq : get_candidate pick db user.id desired (recent_partner_ids db user.id now) now with
  | some o =>
    rw [hq] at h
    have ho : o = other := by
      simpa using h
    subst ho
    rcases get_candidate_eligible pick db user.id desired _ now o hp hq with ⟨hm, he⟩
    exact ⟨hm, eligibleB_weaken _ _ _ _ _ he⟩
  | none =>
    rw [hq] at h
    by_cases hx : recent_partner_ids db user.id now ≠ []
    · rw [if_pos hx] at h
      exact get_candidate_eligible pick db user.id desired [] now other hp h
    · rw [if_neg hx] at h
      cases h

theorem video_build_payload_fields (hmac : List Nat → List Nat → List Nat) (env : Env)
    (salt now : Nat) (sess : MSession) (me other : MUser) (p : Payload)
    (h : video_build_payload hmac env salt now sess me other = .ok p) :
    p.match_gender = other.gender ∧ p.match_id = other.id ∧ p.session_id = sess.id := by
  simp only [video_build_payload] at h
  split at h
  · exact Except.noConfusion h
  · injection h with h
    subst h
    exact ⟨rfl, rfl, rfl⟩

/-! ## Claim C2 — free-tier gender restriction -/

/-- C2 counterexample: the gender-tier invariant fails for the full
`match()` endpoint. Subscribed female user 2 requests a male partner and
claims the free-tier male user 1; user 1's own subsequent `match()` call
then succeeds and pairs this free-tier male requester with a female
partner — a successful match result whose partner gender differs from
the requester's. -/
theorem free_tier_opposite_gender_partner :
    ∃ db1 r1, video_match hmac0 env0 1 1000 List.head? c2db 2 "male" = .ok (db1, r1) ∧
      (find_user db1 1).map (fun u => (u.is_subscribed, norm_gender u.gender, u.video_state)) =
        some (false, "male", "in_call") ∧
      result_partner_gender (video_match hmac0 env0 1 1000 List.head? db1 1 "both") =
        some "female" :=
  ⟨_, _, rfl, by decide, by decide⟩

/-- C2 (amended): the same-gender guarantee holds for the fresh-search
path: for every free-tier requester with normalized gender male or female
who is not currently `in_call`, any successful pairing returned by
`match()` has a partner whose (raw) gender equals the requester's
normalized gender, regardless of the supplied preference. (A free-tier
user who was already claimed by a subscribed opposite-gender requester
receives that opposite-gender partner on re-poll, as the counterexample
shows.) -/
theorem free_tier_fresh_search_same_gender (hmac : List Nat → List Nat → List Nat)
    (env : Env) (salt now : Nat) (pick : List MUser → Option MUser) (db : DB) (uid : Nat)
    (pref : String) (user : MUser) (hp : GoodPick pick) (hu : find_user db uid = some user)
    (hfree : user.is_subscribed = false)
    (hg : norm_gender user.gender = "male" ∨ norm_gender user.gender = "female")
    (hnc : user.video_state ≠ "in_call") :
    ∀ g, result_partner_gender (video_match hmac env salt now pick db uid pref) = some g →
      g = norm_gender user.gender := by
  intro g hres
  simp only [video_match, hu] at hres
  have hcond : ¬((user.video_state == "in_call" &&
      decide (0 < user.video_session_id.getD 0)) = true) := by
    simp only [Bool.and_eq_true, beq_iff_eq, decide_eq_true_eq]
    rintro ⟨h, _⟩
    exact hnc h
  rw [if_neg hcond] at hres
  simp only [video_match_search] at hres
  have hdes : desired_gender (video_set_searching user now) (coerce_pref pref) =
      some (norm_gender user.gender) := by
    unfold desired_gender
    have hsub : (video_set_searching user now).is_subscribed = user.is_subscribed := rfl
    have hgen : (video_set_searching user now).gender = user.gender := rfl
    rw [hsub, hgen, hfree]
    simp only [Bool.false_eq_true, if_false]
    rw [if_pos hg]
  rw [hdes] at hres
  split at hres
  · simp [result_partner_gender] at hres
  · rename_i other hsel
    rcases select_candidate_eligible _ _ _ _ _ _ hp hsel with ⟨_, hel⟩
    have hog : other.gender = norm_gender user.gender := eligibleB_gender _ _ _ _ _ hel
    split at hres
    · simp [result_partner_gender] at hres
    · rename_i p hpay
      rcases video_build_payload_fields _ _ _ _ _ _ _ _ hpay with ⟨hpg, _, _⟩
      simp only [result_partner_gender, Option.some.injEq] at hres
      rw [← hres, hpg]
      exact hog

/-- Witness for C2's amended theorem: a free-tier male requester asking
for `"female"` is nonetheless paired with a male partner. -/
theorem free_tier_fresh_search_same_gender_witness :
    result_partner_gender (video_match hmac0 env0 1 1000 List.head? c2wdb 1 "female") =
      some "male" ∧ "male" = norm_gender "male" :=
  ⟨by decide,
   free_tier_fresh_search_same_gender hmac0 env0 1 1000 List.head? c2wdb 1 "female"
     (mkUser 1 "male" false (some 1000) false "idle" none none none) goodPick_head? rfl rfl
     (Or.inl (by decide)) (by decide) "male" (by decide)⟩

/-! ## Claim C3 — idempotent in-call re-poll -/

/-- C3: for a requester whose `video_state` is `in_call` and whose
`video_session_id` references a live (unended) video session with a
loadable partner, `match()` returns that session's payload and leaves the
store untouched — no new Session row and no state change. Since the store
is returned unchanged, a second call on the same store (same environment,
salt and clock) is the identical expression, so calling `match()` twice
in a row yields the same `session_id` both times. -/
theorem in_call_repoll_returns_same_session (hmac : List Nat → List Nat → List Nat)
    (env : Env) (salt now : Nat) (pick : List MUser → Option MUser) (db : DB) (uid : Nat)
    (pref : String) (user : MUser) (sid : Nat) (sess : MSession)
    (he : env_ok env) (hu : find_user db uid = some user)
    (hst : user.video_state = "in_call") (hsid : user.video_session_id = some sid)
    (hpos : 0 < sid)
    (hs : db.sessions.find? (fun s => s.id == sid && s.mode == "video") = some sess)
    (_hlive : sess.ended_at = none)
    (hother : ∃ other, find_user db (session_partner user.id sess) = some other) :
    result_db (video_match hmac env salt now pick db uid pref) = some db ∧
    result_session_id (video_match hmac env salt now pick db uid pref) = some sid := by
  rcases hother with ⟨other, hother⟩
  obtain ⟨p, hp⟩ := video_build_payload_ok hmac env salt now sess user other he
  have hsid' : sess.id = sid := by
    have hps := List.find?_some hs
    simp only [Bool.and_eq_true, beq_iff_eq] at hps
    exact hps.1
  rcases video_build_payload_fields _ _ _ _ _ _ _ _ hp with ⟨_, _, hpsid⟩
  simp only [video_match, hu, hst, hsid, Option.getD_some]
  rw [if_pos (by simp [hpos])]
  simp only [hs, hother, hp, result_db, result_session_id, hpsid, hsid']
  exact ⟨trivial, trivial⟩

/-- Witness for C3 at a concrete store: user 1 is in-call on live session
5; re-polling returns session 5 and leaves the store unchanged. -/
theorem in_call_repoll_returns_same_session_witness :
    result_db (video_match hmac0 env0 1 1000 List.head? c3db 1 "both") = some c3db ∧
    result_session_id (video_match hmac0 env0 1 1000 List.head? c3db 1 "both") = some 5 :=
  in_call_repoll_returns_same_session hmac0 env0 1 1000 List.head? c3db 1 "both"
    (mkUser 1 "male" false (some 1000) true "in_call" (some 900) (some 5) (some 2)) 5 c3sess
    (Or.inl (by decide)) rfl rfl rfl (by decide) (by decide) rfl
    ⟨mkUser 2 "female" false (some 1000) true "in_call" (some 900) (some 5) (some 1), rfl⟩

/-! ## The search path under a well-formed environment -/

theorem mem_updateUser (db : DB) (x v : MUser) (h : v ∈ (updateUser db x).users) :
    v = x ∨ v ∈ db.users := by
  unfold updateUser at h
  rcases List.mem_map.mp h with ⟨w, hw, hv⟩
  by_cases hid : w.id == x.id
  · rw [if_pos hid] at hv
    exact Or.inl hv.symm
  · rw [if_neg hid] at hv
    exact Or.inr (hv ▸ hw)

/-- Outcome analysis of the search half of `video_match` under a
well-formed environment: either the empty result (requester left
`searching`) or a pairing with the selected candidate, whose session gets
the store's next autoincrement id. -/
theorem video_match_search_cases (hmac : List Nat → List Nat → List Nat) (env : Env)
    (salt now : Nat) (pick : List MUser → Option MUser) (db : DB) (user : MUser)
    (pref : String) (he : env_ok env) :
    video_match_search hmac env salt now pick db user pref =
        .ok (updateUser db (video_set_searching user now), .noMatch) ∨
    (∃ other p db',
      select_candidate pick (updateUser db (video_set_searching user now))
          (video_set_searching user now)
          (desired_gender (video_set_searching user now) pref) now = some other ∧
      video_match_search hmac env salt now pick db user pref = .ok (db', .payload p) ∧
      p.match_id = other.id ∧ p.match_gender = other.gender ∧
      p.session_id = db.next_sid) := by
  simp only [video_match_search]
  cases hsel : select_candidate pick (updateUser db (video_set_searching user now))
      (video_set_searching user now)
      (desired_gender (video_set_searching user now) pref) now with
  | none => exact Or.inl rfl
  | some other =>
    right
    obtain ⟨p, hp⟩ := video_build_payload_ok hmac env salt now
      (claim_pair (updateUser db (video_set_searching user now))
        (video_set_searching user now) other now).2.1
      (claim_pair (updateUser db (video_set_searching user now))
        (video_set_searching user now) other now).2.2.1
      (claim_pair (updateUser db (video_set_searching user now))
        (video_set_searching user now) other now).2.2.2 he
    rcases video_build_payload_fields _ _ _ _ _ _ _ _ hp with ⟨hg, hi, hsid⟩
    refine ⟨other, p,
      (claim_pair (updateUser db (video_set_searching user now))
        (video_set_searching user now) other now).1, rfl, ?_, ?_, ?_, ?_⟩
    · simp only [hp]
    · rw [hi]
      rfl
    · rw [hg]
      rfl
    · rw [hsid]
      rfl

/-! ## Claim C6 — loop avoidance with relaxation, no third party -/

/-- C6: when the only user satisfying the base eligibility filter (the
pool query without the loop-avoidance exclusion — e.g. a user matched
within the last hour, reachable only through the relaxed retry) has id
`bid`, a single fresh-search `match()` call returns success and any
pairing it returns is with `bid` — never a nonexistent third party. Both
the excluded first query and the relaxed retry draw from subsets of the
base-eligible pool, so no other partner can appear. -/
theorem sole_candidate_returns_no_third_party (hmac : List Nat → List Nat → List Nat)
    (env : Env) (salt now : Nat) (pick : List MUser → Option MUser) (db : DB) (uid : Nat)
    (pref : String) (user : MUser) (bid : Nat)
    (hp : GoodPick pick) (he : env_ok env) (hu : find_user db uid = some user)
    (hnc : user.video_state ≠ "in_call")
    (hB : ∀ v ∈ db.users,
      eligibleB user.id (desired_gender user (coerce_pref pref)) [] now v = true →
        v.id = bid) :
    result_is_ok (video_match hmac env salt now pick db uid pref) = true ∧
    ∀ i, result_partner_id (video_match hmac env salt now pick db uid pref) = some i →
      i = bid := by
  have hcond : ¬((user.video_state == "in_call" &&
      decide (0 < user.video_session_id.getD 0)) = true) := by
    simp only [Bool.and_eq_true, beq_iff_eq, decide_eq_true_eq]
    rintro ⟨h, _⟩
    exact hnc h
  have hvm : video_match hmac env salt now pick db uid pref =
      video_match_search hmac env salt now pick db user (coerce_pref pref) := by
    simp only [video_match, hu]
    rw [if_neg hcond]
  rw [hvm]
  rcases video_match_search_cases hmac env salt now pick db user (coerce_pref pref) he with
    h | ⟨other, p, db', hsel, hres, hid, hgen, hsid⟩
  · rw [h]
    refine ⟨rfl, ?_⟩
    intro i hi
    simp [result_partner_id] at hi
  · rw [hres]
    refine ⟨rfl, ?_⟩
    intro i hi
    simp only [result_partner_id, Option.some.injEq] at hi
    rcases select_candidate_eligible _ _ _ _ _ _ hp hsel with ⟨hmem, hel⟩
    rcases mem_updateUser _ _ _ hmem with hvu | hmem'
    · exfalso
      simp only [eligibleB, Bool.and_eq_true] at hel
      have hne := hel.1.1.1.1.1.1
      rw [hvu] at hne
      simp at hne
    · have hbid : other.id = bid := hB other hmem' hel
      rw [← hi, hid, hbid]

/-- Witness for C6 at a concrete store: requester 1's only base-eligible
counterpart is user 2, already matched with them 200 seconds ago. -/
theorem sole_candidate_returns_no_third_party_witness :
    result_is_ok (video_match hmac0 env0 1 1000 List.head? c6db 1 "both") = true :=
  (sole_candidate_returns_no_third_party hmac0 env0 1 1000 List.head? c6db 1 "both"
    (mkUser 1 "male" true (some 1000) false "idle" none none none) 2 goodPick_head?
    (Or.inl (by decide)) rfl (by decide) (by decide)).1

/-! ## Claim C10 — stale in-call state is reset, never raised on -/

/-- C10: if `match()` is called while the requester is `in_call` with a
positive `video_session_id`, but no video session row with that id exists
or the partner row cannot be loaded, the handler resets the requester and
continues with a fresh search: the call returns success (never raises)
and any pairing payload it returns references a freshly created session
(`db.next_sid`), never the missing one. `sid < db.next_sid` is the
autoincrement-key invariant: an id previously issued is below the
counter. -/
theorem stale_in_call_resets_never_raises (hmac : List Nat → List Nat → List Nat)
    (env : Env) (salt now : Nat) (pick : List MUser → Option MUser) (db : DB) (uid : Nat)
    (pref : String) (user : MUser) (sid : Nat)
    (he : env_ok env) (hu : find_user db uid = some user)
    (hst : user.video_state = "in_call") (hsid : user.video_session_id = some sid)
    (hpos : 0 < sid) (hfresh : sid < db.next_sid)
    (hmiss : db.sessions.find? (fun s => s.id == sid && s.mode == "video") = none ∨
      ∃ sess, db.sessions.find? (fun s => s.id == sid && s.mode == "video") = some sess ∧
        find_user db (session_partner user.id sess) = none) :
    result_is_ok (video_match hmac env salt now pick db uid pref) = true ∧
    ∀ s, result_session_id (video_match hmac env salt now pick db uid pref) = some s →
      s ≠ sid := by
  have hvm : video_match hmac env salt now pick db uid pref =
      video_match_search hmac env salt now pick (updateUser db (video_reset_state user now))
        (video_reset_state user now) (coerce_pref pref) := by
    simp only [video_match, hu, hst, hsid, Option.getD_some]
    rw [if_pos (by simp [hpos])]
    rcases hmiss with hm | ⟨sess, hm, hpartner⟩
    · rw [hm]
    · rw [hm]
      simp only [hpartner]
  rw [hvm]
  rcases video_match_search_cases hmac env salt now pick
      (updateUser db (video_reset_state user now)) (video_reset_state user now)
      (coerce_pref pref) he with
    h | ⟨other, p, db', hsel, hres, hid, hgen, hsd⟩
  · rw [h]
    refine ⟨rfl, ?_⟩
    intro s hs
    simp [result_session_id] at hs
  · rw [hres]
    refine ⟨rfl, ?_⟩
    intro s hs
    simp only [result_session_id, Option.some.injEq] at hs
    have hps : p.session_id = db.next_sid := hsd
    omega

/-- Witness for C10 at a concrete store: user 1 is `in_call` pointing at
missing session 5; the call succeeds instead of raising. -/
theorem stale_in_call_resets_never_raises_witness :
    result_is_ok (video_match hmac0 env0 1 1000 List.head? c10db 1 "both") = true :=
  (stale_in_call_resets_never_raises hmac0 env0 1 1000 List.head? c10db 1 "both"
    (mkUser 1 "male" false (some 1000) true "in_call" (some 900) (some 5) (some 9)) 5
    (Or.inl (by decide)) rfl rfl rfl (by decide) (by decide) (Or.inl (by decide))).1

/-! ## find?/update plumbing for `/video/end` -/

theorem find?_imp_unique (l : List MSession) (p q : MSession → Bool) (x : MSession)
    (hf : l.find? p = some x) (hq : ∀ z ∈ l, q z = true → p z = true)
    (hqx : q x = true) : l.find? q = some x := by
  induction l with
  | nil => cases hf
  | cons h t ih =>
    by_cases hph : p h = true
    · rw [List.find?_cons_of_pos _ hph] at hf
      injection hf with hf
      subst hf
      rw [List.find?_cons_of_pos _ hqx]
    · rw [List.find?_cons_of_neg _ hph] at hf
      have hqh : ¬ q h = true := fun hqh => hph (hq h (List.mem_cons_self _ _) hqh)
      rw [List.find?_cons_of_neg _ hqh]
      exact ih hf (fun z hz => hq z (List.mem_cons_of_mem _ hz))

theorem find?_map_update (l : List MSession) (p : MSession → Bool) (x y : MSession)
    (hf : l.find? p = some x) (huniq : ∀ z ∈ l, z.id = x.id → p z = true)
    (hy : p y = true) (hyid : y.id = x.id) :
    (l.map (fun s => if s.id == y.id then y else s)).find? p = some y := by
  induction l with
  | nil => cases hf
  | cons h t ih =>
    simp only [List.map_cons]
    by_cases hph : p h = true
    · rw [List.find?_cons_of_pos _ hph] at hf
      injection hf with hf
      subst hf
      rw [if_pos (by simp [hyid])]
      rw [List.find?_cons_of_pos _ hy]
    · rw [List.find?_cons_of_neg _ hph] at hf
      have hhid : ¬ h.id = x.id := fun hid => hph (huniq h (List.mem_cons_self _ _) hid)
      rw [if_neg (by simpa [hyid] using hhid)]
      rw [List.find?_cons_of_neg _ hph]
      exact ih hf (fun z hz hzid => huniq z (List.mem_cons_of_mem _ hz) hzid)

theorem updateSession_sessions (db : DB) (s : MSession) :
    (updateSession db s).sessions = db.sessions.map (fun v => if v.id == s.id then s else v) :=
  rfl

theorem reset_user_id_sessions (db : DB) (i now : Nat) :
    (reset_user_id db i now).sessions = db.sessions := by
  unfold reset_user_id
  cases find_user db i <;> rfl

theorem find_user_updateUser (db : DB) (x : MUser) (uid : Nat) :
    find_user (updateUser db x) uid =
      (find_user db uid).map (fun v => if v.id == x.id then x else v) := by
  unfold find_user updateUser
  rw [List.find?_map]
  have hp : ((fun u : MUser => u.id == uid) ∘ fun v => if v.id == x.id then x else v) =
      fun u : MUser => u.id == uid := by
    funext v
    by_cases h : v.id == x.id
    · simp only [Function.comp_apply, if_pos h]
      have hv : v.id = x.id := by simpa using h
      rw [hv]
    · simp only [Function.comp_apply, if_neg h]
  rw [hp]

theorem find_user_reset_exists (d : DB) (i now uid : Nat) (u : MUser)
    (h : find_user d uid = some u) :
    ∃ u2, find_user (reset_user_id d i now) uid = some u2 ∧ u2.id = u.id := by
  unfold reset_user_id
  cases hf : find_user d i with
  | none => exact ⟨u, h, rfl⟩
  | some w =>
    rw [find_user_updateUser, h, Option.map_some']
    by_cases hid : u.id == (video_reset_state w now).id
    · rw [if_pos hid]
      refine ⟨video_reset_state w now, rfl, ?_⟩
      have : u.id = (video_reset_state w now).id := by simpa using hid
      exact this.symm
    · rw [if_neg hid]
      exact ⟨u, rfl, rfl⟩

/-! ## Claim C4 — idempotent end -/

/-- C4 counterexample: `end()` is *not* mutation-free on the second call.
Ending session 5 at t=100 stamps `ended_at = 100`; calling `end()` again
with the same session id at t=200 succeeds but re-stamps the already-ended
session's `ended_at` to 200 — the second call mutates the Session row
(and re-touches both participants), contradicting "performs no further
state mutation". -/
theorem end_call_second_call_mutates :
    ∃ db1 db2, end_video_call c4db 1 (some 5) 100 = .ok (db1, true) ∧
      end_video_call db1 1 (some 5) 200 = .ok (db2, true) ∧
      db1.sessions.map (fun s => s.ended_at) = [some 100] ∧
      db2.sessions.map (fun s => s.ended_at) = [some 200] ∧ db2 ≠ db1 :=
  ⟨_, _, rfl, rfl, by decide, by decide, by decide⟩

/-- C4 (amended): `end()` called twice with the same session id returns
success both times, but the second call is not a no-op: it re-applies the
end mutations, re-stamping the session row's `ended_at` to the second
call's time and `ended_by_id` to the caller (and re-resetting both
participants). With identical timestamps the repeated call reproduces the
same state, so the operation is idempotent in outcome, not mutation-free.
`hnd` is the primary-key uniqueness of the sessions table. -/
theorem end_call_idempotent_success_restamps (db : DB) (uid sid now1 now2 : Nat)
    (user : MUser) (sess : MSession)
    (hnd : (db.sessions.map (fun s => s.id)).Nodup)
    (hu : find_user db uid = some user) (hpos : 0 < sid)
    (hs : db.sessions.find? (endSessPred sid user.id) = some sess) :
    ∃ db1 db2,
      end_video_call db uid (some sid) now1 = .ok (db1, true) ∧
      end_video_call db1 uid (some sid) now2 = .ok (db2, true) ∧
      db2.sessions.find? (fun s => s.id == sid) =
        some { sess with ended_at := some now2, ended_by_id := some user.id } := by
  have hpx := List.find?_some hs
  have hsid' : sess.id = sid := by
    have hx := hpx
    simp only [endSessPred, Bool.and_eq_true, beq_iff_eq] at hx
    exact hx.1.1
  have hmem := List.mem_of_find?_eq_some hs
  have hinj := List.inj_on_of_nodup_map hnd
  have huniq : ∀ z ∈ db.sessions, z.id = sess.id → endSessPred sid user.id z = true := by
    intro z hz hzid
    have hzx : z = sess := hinj hz hmem hzid
    rw [hzx]
    exact hpx
  set sess1 : MSession := { sess with ended_at := some now1, ended_by_id := some user.id }
    with hsess1
  set d1 : DB := reset_user_id (reset_user_id (updateSession db sess1) sess.user_a_id now1)
    sess.user_b_id now1 with hd1
  have hcall1 : end_video_call db uid (some sid) now1 = .ok (d1, true) := by
    simp only [end_video_call, hu, Option.getD_some]
    rw [if_pos hpos, hs]
  have hd1sessions : d1.sessions =
      db.sessions.map (fun v => if v.id == sess1.id then sess1 else v) := by
    rw [hd1, reset_user_id_sessions, reset_user_id_sessions, updateSession_sessions]
  obtain ⟨u2, hu2, hu2id⟩ : ∃ u2, find_user d1 uid = some u2 ∧ u2.id = user.id := by
    rw [hd1]
    have h0 : find_user (updateSession db sess1) uid = some user := hu
    obtain ⟨ua, hua, huaid⟩ :=
      find_user_reset_exists (updateSession db sess1) sess.user_a_id now1 uid user h0
    obtain ⟨ub, hub, hubid⟩ :=
      find_user_reset_exists _ sess.user_b_id now1 uid ua hua
    exact ⟨ub, hub, by rw [hubid, huaid]⟩
  have hfind2 : d1.sessions.find? (endSessPred sid u2.id) = some sess1 := by
    rw [hu2id, hd1sessions]
    exact find?_map_update db.sessions (endSessPred sid user.id) sess sess1 hs huniq hpx rfl
  set sess2 : MSession := { sess1 with ended_at := some now2, ended_by_id := some u2.id }
    with hsess2
  set d2 : DB := reset_user_id (reset_user_id (updateSession d1 sess2) sess1.user_a_id now2)
    sess1.user_b_id now2 with hd2
  have hcall2 : end_video_call d1 uid (some sid) now2 = .ok (d2, true) := by
    simp only [end_video_call, hu2, Option.getD_some]
    rw [if_pos hpos, hfind2]
  have hq1 : db.sessions.find? (fun s => s.id == sid) = some sess := by
    refine find?_imp_unique db.sessions (endSessPred sid user.id) _ sess hs ?_ ?_
    · intro z hz hqz
      have hzid : z.id = sid := by simpa using hqz
      exact huniq z hz (by rw [hzid, hsid'])
    · simp [hsid']
  have hq2 : d1.sessions.find? (fun s => s.id == sid) = some sess1 := by
    rw [hd1sessions]
    refine find?_map_update db.sessions _ sess sess1 hq1 ?_ ?_ rfl
    · intro z hz hzid
      simp [hzid, hsid']
    · simp [hsid']
  have hd2sessions : d2.sessions =
      d1.sessions.map (fun v => if v.id == sess2.id then sess2 else v) := by
    rw [hd2, reset_user_id_sessions, reset_user_id_sessions, updateSession_sessions]
  have hq3 : d2.sessions.find? (fun s => s.id == sid) = some sess2 := by
    rw [hd2sessions]
    refine find?_map_update d1.sessions _ sess1 sess2 hq2 ?_ ?_ rfl
    · intro z hz hzid
      simp [hzid, hsid']
    · simp [hsid']
  refine ⟨d1, d2, hcall1, hcall2, ?_⟩
  rw [hq3, hsess2, hu2id]

/-- Witness for C4's amended theorem at a concrete store. -/
theorem end_call_idempotent_success_restamps_witness :
    ∃ db1 db2,
      end_video_call c4db 1 (some 5) 100 = .ok (db1, true) ∧
      end_video_call db1 1 (some 5) 200 = .ok (db2, true) ∧
      db2.sessions.find? (fun s => s.id == 5) =
        some { id := 5, mode := "video", user_a_id := 1, user_b_id := 2, created_at := 50
               ended_at := some 200, ended_by_id := some 1 } :=
  end_call_idempotent_success_restamps c4db 1 5 100 200
    (mkUser 1 "male" false (some 50) true "in_call" (some 50) (some 5) (some 2))
    { id := 5, mode := "video", user_a_id := 1, user_b_id := 2, created_at := 50
      ended_at := none, ended_by_id := none }
    (by decide) rfl (by decide) (by decide)
